import Mathlib

/-!
Verification of the transcode orchestration core of the
`music-embed-lyrics-cover` repository (a browser app driving ffmpeg.wasm).

The definitions below are a shallow embedding of `src/src/App.tsx`
(`handleExtractAudio`, `handleConvertToGif`) and of the `useLoadFFmpeg`
hook.  The ffmpeg.wasm engine itself is opaque; it is modelled by a
behaviour oracle saying which calls fail, a virtual file store holding
the names of staged artifacts, and a trace of the engine calls issued.
-/

namespace MusicEmbed

/-! ## Lyrics escaping (App.tsx line 93)

`lrcContent.replace(/"/g, '\\"').replace(/\n/g, "\\n")`:
first every quote character becomes backslash-quote, then every newline
character becomes the literal two-character sequence backslash-n. -/

/-- First `replace`: each `"` becomes `\"`; all other characters kept. -/
def escQuoteChars : List Char → List Char
  | [] => []
  | c :: rest =>
    (if c = '"' then ['\\', '"'] else [c]) ++ escQuoteChars rest

/-- Second `replace`: each newline becomes the two characters `\` `n`. -/
def escNewlineChars : List Char → List Char
  | [] => []
  | c :: rest =>
    (if c = '\n' then ['\\', 'n'] else [c]) ++ escNewlineChars rest

/-- `s.replace(/"/g, '\\"').replace(/\n/g, "\\n")` from `handleExtractAudio`. -/
def escapeLyrics (s : String) : String :=
  ⟨escNewlineChars (escQuoteChars s.data)⟩

/-- Modelled from the spec: the repository contains no parser for the
escaped metadata values, so the "tagging convention" parser of the
round-trip law is taken from the spec's words: reading left to right,
`\"` decodes to a quote and `\n` decodes to a newline; every other
character stands for itself. -/
def unescChars : List Char → List Char
  | [] => []
  | [c] => [c]
  | c :: d :: rest =>
    if c = '\\' ∧ d = '"' then '"' :: unescChars rest
    else if c = '\\' ∧ d = 'n' then '\n' :: unescChars rest
    else c :: unescChars (d :: rest)

/-- Modelled from the spec: string-level wrapper of `unescChars`. -/
def specUnescape (s : String) : String :=
  ⟨unescChars s.data⟩

/-- `lyrics.trim()` (JS `String.prototype.trim`): strip whitespace from
both ends.  Defined on character lists so it evaluates in the kernel;
`Char.isWhitespace` covers the whitespace characters this repository's
lyrics can contain. -/
def jsTrim (s : String) : String :=
  ⟨((s.data.dropWhile Char.isWhitespace).reverse.dropWhile
      Char.isWhitespace).reverse⟩

/-! ## Engine output normalization (App.tsx lines 107-116, 164-173)

`ffmpeg.readFile` returns `FileData`, either a `string` or a
`Uint8Array`; the handlers normalize both to a `Uint8Array` before
wrapping it in a `Blob`. -/

/-- The `FileData` union returned by `ffmpeg.readFile`. -/
inductive FileData
  | str (s : String)
  | bin (b : List Nat)
deriving DecidableEq

/-- UTF-8 encoding, the model of `new TextEncoder().encode(data)`. -/
def utf8Bytes (s : String) : List Nat :=
  s.toUTF8.toList.map (fun c => c.toNat)

/-- The normalization branch of both handlers: a string is encoded to
bytes with `TextEncoder`, a byte array is copied element by element
(`new Uint8Array([...data])`). -/
def normalizeOutput : FileData → List Nat
  | FileData.str s => utf8Bytes s
  | FileData.bin b => b.map id

/-! ## Engine and application state

The ffmpeg.wasm instance is opaque.  Its observable surface in the
handlers is `writeFile`, `exec`, `readFile`, `deleteFile`.  An
`EngineBehavior` oracle decides which of those calls fail (modelling
engine-level errors); the virtual staging area is the list of staged
artifact names; every engine call is recorded in a trace.  A successful
`exec` materializes the command's output file, which in all three
commands of this repository is the trailing argument. -/

/-- Which engine calls fail during a run. -/
structure EngineBehavior where
  writeFails : String → Bool
  execFails : List String → Bool
  readFails : String → Bool
  deleteFails : String → Bool

/-- One engine interaction, as recorded in the run trace. -/
inductive EngineOp
  | write (name : String)
  | exec (args : List String)
  | read (name : String)
  | delete (name : String)
deriving DecidableEq

/-- The materialized result: `new Blob([bytes], { type: mime })` plus
`URL.createObjectURL`, abstracted to its MIME type and byte content. -/
structure Resource where
  mime : String
  bytes : List Nat
deriving DecidableEq

/-- The component state of `App` that the two handlers touch, together
with the engine-side staging area and call trace. -/
structure World where
  loading : Bool
  message : String
  videoFile : Option Unit
  lyrics : String
  outputUrl : Option Resource
  ffmpegLoading : Bool
  fs : List String
  trace : List EngineOp
deriving DecidableEq

/-- A run scenario: the failure oracle plus the `FileData` the engine
returns from a successful `readFile`. -/
structure Scenario where
  behavior : EngineBehavior
  readResult : FileData

/-- An engine error together with the world at the moment it was thrown
(the `catch` blocks observe this world). -/
abbrev EngineError := String × World

/-- Staging a file: `writeFile` / a command output overwrites any entry
of the same name. -/
def insertName (name : String) (fs : List String) : List String :=
  if name ∈ fs then fs else fs ++ [name]

/-- Unstaging a file (`deleteFile`). -/
def removeName (name : String) (fs : List String) : List String :=
  fs.filter (fun m => m ≠ name)

/-- `await ffmpeg.writeFile(name, bytes)`. -/
def doWrite (b : EngineBehavior) (name : String) (w : World) :
    Except EngineError World :=
  let w := { w with trace := w.trace ++ [EngineOp.write name] }
  if b.writeFails name then Except.error ("writeFile failed", w)
  else Except.ok { w with fs := insertName name w.fs }

/-- `await ffmpeg.exec(args)`; on success the command's output file
(the trailing argument) is staged. -/
def doExec (b : EngineBehavior) (args : List String) (w : World) :
    Except EngineError World :=
  let w := { w with trace := w.trace ++ [EngineOp.exec args] }
  if b.execFails args then Except.error ("exec failed", w)
  else Except.ok { w with fs := insertName (args.getLastD "") w.fs }

/-- `await ffmpeg.readFile(name)`; fails if the engine says so or if the
artifact is absent. -/
def doRead (sc : Scenario) (name : String) (w : World) :
    Except EngineError (World × FileData) :=
  let w := { w with trace := w.trace ++ [EngineOp.read name] }
  if sc.behavior.readFails name = true ∨ name ∉ w.fs then
    Except.error ("readFile failed", w)
  else Except.ok (w, sc.readResult)

/-- `await ffmpeg.deleteFile(name)`; the underlying FS unlink fails on a
missing artifact. -/
def doDelete (b : EngineBehavior) (name : String) (w : World) :
    Except EngineError World :=
  if b.deleteFails name = true ∨ name ∉ w.fs then
    Except.error ("deleteFile failed",
      { w with trace := w.trace ++ [EngineOp.delete name] })
  else
    Except.ok { w with
      trace := w.trace ++ [EngineOp.delete name],
      fs := removeName name w.fs }

/-! ## The ExtractAudio pipeline (App.tsx lines 34-131) -/

/-- Stage 1 (lines 50-60): extract the first frame as the cover. -/
def extractStage1Args : List String :=
  ["-i", "input.mp4", "-ss", "0", "-vframes", "1",
   "-vf", "scale=500:-1", "cover.jpg"]

/-- Stage 2 base arguments (lines 66-85). -/
def extractBaseArgs : List String :=
  ["-i", "input.mp4", "-i", "cover.jpg", "-map", "0:a", "-map", "1",
   "-c:a", "libmp3lame", "-ab", "192k", "-c:v:1", "mjpeg",
   "-disposition:v:1", "attached_pic", "-id3v2_version", "3"]

/-- The two metadata arguments pushed when lyrics are present
(lines 88-96). -/
def lyricsMetaArgs (lyrics : String) : List String :=
  ["-metadata", "LYRICS=" ++ escapeLyrics (jsTrim lyrics),
   "-metadata", "USLT=" ++ escapeLyrics (jsTrim lyrics)]

/-- The full stage-2 command: base arguments, then the metadata
arguments when `lyrics.trim()` is truthy, then the output file. -/
def extractStage2Args (lyrics : String) : List String :=
  (extractBaseArgs ++
    if jsTrim lyrics = "" then [] else lyricsMetaArgs lyrics)
  ++ ["output.mp3"]

/-- MIME type of the extracted audio blob (line 116). -/
def extractMime : String := "audio/mp3"

/-- The `try` block of `handleExtractAudio` (lines 44-124): stage input,
run both stages, read the output, materialize it, then delete the three
staged artifacts. -/
def extractBody (sc : Scenario) (w : World) : Except EngineError World := do
  let w ← doWrite sc.behavior "input.mp4" w
  let w := { w with message := "正在提取视频第一帧..." }
  let w ← doExec sc.behavior extractStage1Args w
  let w := { w with message := "正在生成 MP3 文件（嵌入封面和歌词）..." }
  let w ← doExec sc.behavior (extractStage2Args w.lyrics) w
  let (w, data) ← doRead sc "output.mp3" w
  let w := { w with
    outputUrl := some ⟨extractMime, normalizeOutput data⟩,
    message := "音频提取成功！已嵌入封面和歌词" }
  let w ← doDelete sc.behavior "input.mp4" w
  let w ← doDelete sc.behavior "output.mp3" w
  let w ← doDelete sc.behavior "cover.jpg" w
  return w

/-- `handleExtractAudio`: the guard (lines 35-38), the `try` body, the
`catch` that only logs and sets the message (lines 125-127), and the
`finally` clearing `loading` (lines 128-130).  The first component is
what the handler's caller observes: the async function never re-throws. -/
def handleExtractAudio (sc : Scenario) (w : World) :
    Except String Unit × World :=
  if w.videoFile.isNone || w.ffmpegLoading then
    (Except.ok (), { w with message := "请先选择文件并加载 FFmpeg" })
  else
    match extractBody sc { w with
        loading := true,
        message := "正在提取视频第一帧作为封面..." } with
    | Except.ok w2 => (Except.ok (), { w2 with loading := false })
    | Except.error (e, w2) =>
        (Except.ok (), { w2 with
          message := "提取音频失败: " ++ e, loading := false })

/-! ## The ConvertToPreview pipeline (App.tsx lines 137-187) -/

/-- The GIF conversion command (lines 152-162): first 5 seconds from
offset 0, 10 fps, width 320 with derived height. -/
def gifArgs : List String :=
  ["-i", "input.mp4", "-t", "5.0", "-ss", "0.0",
   "-vf", "fps=10,scale=320:-1", "output.gif"]

/-- MIME type of the preview blob (line 174). -/
def gifMime : String := "image/gif"

/-- The `try` block of `handleConvertToGif` (lines 147-180). -/
def gifBody (sc : Scenario) (w : World) : Except EngineError World := do
  let w ← doWrite sc.behavior "input.mp4" w
  let w ← doExec sc.behavior gifArgs w
  let (w, data) ← doRead sc "output.gif" w
  let w := { w with
    outputUrl := some ⟨gifMime, normalizeOutput data⟩,
    message := "GIF 转换成功！" }
  let w ← doDelete sc.behavior "input.mp4" w
  let w ← doDelete sc.behavior "output.gif" w
  return w

/-- `handleConvertToGif`: guard, body, swallowing `catch`, `finally`. -/
def handleConvertToGif (sc : Scenario) (w : World) :
    Except String Unit × World :=
  if w.videoFile.isNone || w.ffmpegLoading then
    (Except.ok (), { w with message := "请先选择文件并加载 FFmpeg" })
  else
    match gifBody sc { w with
        loading := true,
        message := "正在转换为 GIF..." } with
    | Except.ok w2 => (Except.ok (), { w2 with loading := false })
    | Except.error (e, w2) =>
        (Except.ok (), { w2 with
          message := "转换失败: " ++ e, loading := false })

/-! ## Concrete states and behaviours used in the theorems -/

/-- The initial `lyrics` state (App.tsx lines 10-13). -/
def defaultLyrics : String :=
  "[00:00.00]示例歌词第一句\n[00:05.00]示例歌词第二句\n[00:10.00]示例歌词第三句\n[00:15.00]示例歌词第四句"

/-- A ready-to-run state: file selected, engine loaded, empty staging
area, no prior engine calls. -/
def w0 : World :=
  { loading := false, message := "", videoFile := some (),
    lyrics := defaultLyrics, outputUrl := none, ffmpegLoading := false,
    fs := [], trace := [] }

/-- The behaviour in which every engine call succeeds. -/
def allOk : EngineBehavior :=
  ⟨fun _ => false, fun _ => false, fun _ => false, fun _ => false⟩

/-- A behaviour in which only the second ExtractAudio stage (the command
whose output is `output.mp3`) fails. -/
def failStage2 : EngineBehavior :=
  { allOk with execFails := fun args => args.getLastD "" == "output.mp3" }

/-- A behaviour in which staging the input (`writeFile`) fails. -/
def failWrite : EngineBehavior :=
  { allOk with writeFails := fun _ => true }

/-! ## The engine load routine (`useLoadFFmpeg`, src/unnamed/part_000
lines 535-582) -/

/-- State of the load routine: the `loading` flag, how many times
`ffmpeg.load` was triggered, and how many load errors were logged by the
`catch` block. -/
structure LoadState where
  loading : Bool
  loadsTriggered : Nat
  errorsLogged : Nat
deriving DecidableEq

/-- One invocation of `loadFFmpeg` (lines 541-569): it sets `loading`,
registers the log/progress listeners, and calls `ffmpeg.load`
unconditionally — the body consults no state before loading.  A load
error is caught and logged (`console.error`) only; the `finally` clears
`loading`; the async function always resolves normally. -/
def loadFFmpegRun (loadFails : Bool) (st : LoadState) :
    Except String Unit × LoadState :=
  let st := { st with loading := true }
  let st := { st with loadsTriggered := st.loadsTriggered + 1 }
  if loadFails then
    (Except.ok (),
      { st with errorsLogged := st.errorsLogged + 1, loading := false })
  else
    (Except.ok (), { st with loading := false })

/-- `n` invocations of `loadFFmpeg` against the same hook state, each
load succeeding.  Because the body never consults the shared state
before calling `ffmpeg.load`, every interleaving of `n` overlapping
invocations issues the same `n` load calls this sequence does. -/
def invokeLoadN : Nat → LoadState → LoadState
  | 0, st => st
  | n + 1, st => invokeLoadN n (loadFFmpegRun false st).2

/-- Hook state before any invocation. -/
def initialLoadState : LoadState := ⟨false, 0, 0⟩

/-! ## Helper lemmas about the escaping functions -/

theorem escNewlineChars_append (a b : List Char) :
    escNewlineChars (a ++ b) = escNewlineChars a ++ escNewlineChars b := by
  induction a with
  | nil => rfl
  | cons c t ih => simp [escNewlineChars, ih]

theorem unesc_cons_ne (c : Char) (X : List Char) (h : c ≠ '\\') :
    unescChars (c :: X) = c :: unescChars X := by
  cases X with
  | nil => rfl
  | cons d rest => simp [unescChars, h]

theorem unesc_quote (X : List Char) :
    unescChars ('\\' :: '"' :: X) = '"' :: unescChars X := by
  simp [unescChars]

theorem unesc_newline (X : List Char) :
    unescChars ('\\' :: 'n' :: X) = '\n' :: unescChars X := by
  simp [unescChars]

theorem escNewline_cons_ne (c : Char) (X : List Char) (h : c ≠ '\n') :
    escNewlineChars (c :: X) = c :: escNewlineChars X := by
  simp [escNewlineChars, h]

theorem escNewline_cons_nl (X : List Char) :
    escNewlineChars ('\n' :: X) = '\\' :: 'n' :: escNewlineChars X := by
  simp [escNewlineChars]

theorem escQuote_cons_quote (X : List Char) :
    escQuoteChars ('"' :: X) = '\\' :: '"' :: escQuoteChars X := by
  simp [escQuoteChars]

theorem escQuote_cons_ne (c : Char) (X : List Char) (h : c ≠ '"') :
    escQuoteChars (c :: X) = c :: escQuoteChars X := by
  simp [escQuoteChars, h]

theorem unesc_esc (l : List Char) (h : '\\' ∉ l) :
    unescChars (escNewlineChars (escQuoteChars l)) = l := by
  induction l with
  | nil => rfl
  | cons c t ih =>
    rw [List.mem_cons] at h
    push_neg at h
    obtain ⟨hc, ht⟩ := h
    have hc' : c ≠ '\\' := fun hEq => hc (hEq ▸ rfl)
    by_cases hq : c = '"'
    · subst hq
      rw [escQuote_cons_quote, escNewline_cons_ne '\\' _ (by decide),
        escNewline_cons_ne '"' _ (by decide), unesc_quote, ih ht]
    · by_cases hn : c = '\n'
      · subst hn
        rw [escQuote_cons_ne _ _ hq, escNewline_cons_nl, unesc_newline,
          ih ht]
      · rw [escQuote_cons_ne _ _ hq, escNewline_cons_ne c _ hn,
          unesc_cons_ne c _ hc', ih ht]

theorem newline_not_mem_escNewlineChars (l : List Char) :
    '\n' ∉ escNewlineChars l := by
  induction l with
  | nil => simp [escNewlineChars]
  | cons c t ih =>
    simp only [escNewlineChars, List.mem_append]
    rintro (h | h)
    · by_cases hn : c = '\n'
      · rw [if_pos hn] at h
        exact absurd h (by decide)
      · rw [if_neg hn] at h
        simp at h
        exact hn h.symm
    · exact ih h

theorem lyrics_tag_ne (e : String) : "LYRICS=" ++ e ≠ "-metadata" := by
  intro hEq
  have h2 : ("LYRICS=" ++ e).data = "-metadata".data := congrArg String.data hEq
  rw [String.data_append] at h2
  have h3 : 'L' = '-' := congrArg (fun l => l.headD ' ') h2
  exact absurd h3 (by decide)

theorem uslt_tag_ne (e : String) : "USLT=" ++ e ≠ "-metadata" := by
  intro hEq
  have h2 : ("USLT=" ++ e).data = "-metadata".data := congrArg String.data hEq
  rw [String.data_append] at h2
  have h3 : 'U' = '-' := congrArg (fun l => l.headD ' ') h2
  exact absurd h3 (by decide)

theorem extractStage2Args_getLast (lyr : String) :
    (extractStage2Args lyr).getLast? = some "output.mp3" := by
  unfold extractStage2Args
  exact List.getLast?_concat _

theorem extractStage2Args_getLastD (lyr : String) :
    (extractStage2Args lyr).getLastD "" = "output.mp3" := by
  unfold extractStage2Args
  exact List.getLastD_concat _ _ _

/-- The fully successful ExtractAudio run, for an arbitrary engine read
result and arbitrary lyrics state: the handler resolves normally, sets
the success message, materializes the normalized bytes under the
`audio/mp3` MIME type, issues exactly the seven engine calls in order,
and leaves the staging area empty. -/
theorem extract_allOk_run (d : FileData) (lyr : String) :
    handleExtractAudio ⟨allOk, d⟩ { w0 with lyrics := lyr } =
      (Except.ok (),
        { loading := false, message := "音频提取成功！已嵌入封面和歌词",
          videoFile := some (), lyrics := lyr,
          outputUrl := some ⟨extractMime, normalizeOutput d⟩,
          ffmpegLoading := false, fs := [],
          trace := [EngineOp.write "input.mp4",
            EngineOp.exec extractStage1Args,
            EngineOp.exec (extractStage2Args lyr),
            EngineOp.read "output.mp3",
            EngineOp.delete "input.mp4", EngineOp.delete "output.mp3",
            EngineOp.delete "cover.jpg"] }) := by
  simp [handleExtractAudio, extractBody, bind, Except.bind, doWrite,
    doExec, doRead, doDelete, insertName, removeName, w0, allOk,
    extractStage1Args, extractStage2Args_getLast,
    extractStage2Args_getLastD, pure, Except.pure]

/-- The fully successful ConvertToPreview run, for an arbitrary engine
read result and lyrics state. -/
theorem gif_allOk_run (d : FileData) (lyr : String) :
    handleConvertToGif ⟨allOk, d⟩ { w0 with lyrics := lyr } =
      (Except.ok (),
        { loading := false, message := "GIF 转换成功！",
          videoFile := some (), lyrics := lyr,
          outputUrl := some ⟨gifMime, normalizeOutput d⟩,
          ffmpegLoading := false, fs := [],
          trace := [EngineOp.write "input.mp4", EngineOp.exec gifArgs,
            EngineOp.read "output.gif",
            EngineOp.delete "input.mp4",
            EngineOp.delete "output.gif"] }) := by
  simp [handleConvertToGif, gifBody, bind, Except.bind, doWrite,
    doExec, doRead, doDelete, insertName, removeName, w0, allOk, gifArgs,
    pure, Except.pure]

/-! ## Claim C1 — cleanup of staged artifacts -/

/-- C1 counterexample: in an ExtractAudio run whose second stage fails,
the handler returns with the input and the intermediate cover image
still staged — the cleanup section is inside the `try` block after the
read, so a mid-pipeline failure skips it entirely. -/
theorem c1_failed_run_leaves_staged_state :
    (handleExtractAudio ⟨failStage2, FileData.bin []⟩ w0).2.fs =
      ["input.mp4", "cover.jpg"] ∧
    (handleExtractAudio ⟨failStage2, FileData.bin []⟩ w0).2.fs ≠ [] := by
  refine ⟨by decide, by decide⟩

/-- C1 (amended): only on a fully successful run is every artifact
staged during the run (input, intermediate cover, final output) deleted
before the handler returns; on a mid-pipeline or read failure no cleanup
is performed and the already-staged artifacts remain. -/
theorem c1_cleanup_on_success (d : FileData) (lyr : String) :
    (handleExtractAudio ⟨allOk, d⟩ { w0 with lyrics := lyr }).2.fs = []
      ∧
    (handleConvertToGif ⟨allOk, d⟩ { w0 with lyrics := lyr }).2.fs = []
      := by
  rw [extract_allOk_run, gif_allOk_run]
  exact ⟨rfl, rfl⟩

/-! ## Claim C2 — propagation of engine-level errors -/

/-- C2 counterexample: when staging the input fails, the handler's
caller still observes a normal (`ok`) completion — the `catch` block
converts the engine error into a status message only; the load routine
swallows its error the same way. -/
theorem c2_engine_error_not_propagated :
    (handleExtractAudio ⟨failWrite, FileData.bin []⟩ w0).1 =
      Except.ok () ∧
    (handleExtractAudio ⟨failWrite, FileData.bin []⟩ w0).2.message =
      "提取音频失败: writeFile failed" ∧
    (loadFFmpegRun true initialLoadState).1 = Except.ok () :=
  ⟨rfl, rfl, rfl⟩

/-- C2 (amended): engine-level failures never propagate to the callers
of the pipeline handlers or of the load routine: every invocation
resolves normally (`ok`), whatever the engine does; the failure is
visible only through the status message and the error log. -/
theorem c2_handlers_always_resolve (sc : Scenario) (w : World)
    (b : Bool) (st : LoadState) :
    (handleExtractAudio sc w).1 = Except.ok () ∧
    (handleConvertToGif sc w).1 = Except.ok () ∧
    (loadFFmpegRun b st).1 = Except.ok () := by
  refine ⟨?_, ?_, ?_⟩
  · unfold handleExtractAudio
    split
    · rfl
    · split <;> rfl
  · unfold handleConvertToGif
    split
    · rfl
    · split <;> rfl
  · cases b <;> rfl

/-! ## Claim C3 — no-lyrics ExtractAudio form -/

/-- C3 counterexample: with no lyrics the builder still emits the
cover-mapping arguments and the run still executes the cover-extraction
stage — the simple single-stage form does not exist in the code. -/
theorem c3_no_lyrics_still_cover_form :
    "-disposition:v:1" ∈ extractStage2Args "" ∧
    "-map" ∈ extractStage2Args "" ∧
    EngineOp.exec extractStage1Args ∈
      (handleExtractAudio ⟨allOk, FileData.bin []⟩
        { w0 with lyrics := "" }).2.trace := by
  refine ⟨by decide, by decide, by decide⟩

/-- C3 (amended): with no lyrics supplied (blank after trimming) the
constructed stage-2 command contains no lyrics metadata arguments and
the materialized result carries MIME type `audio/mp3`; the cover-mapping
arguments are present regardless, because the two-stage cover form is
always used. -/
theorem c3_no_lyrics_no_metadata (lyrics : String)
    (h : jsTrim lyrics = "") :
    "-metadata" ∉ extractStage2Args lyrics ∧
    "-disposition:v:1" ∈ extractStage2Args lyrics ∧
    (handleExtractAudio ⟨allOk, FileData.bin [7]⟩
        { w0 with lyrics := lyrics }).2.outputUrl =
      some ⟨extractMime, [7]⟩ ∧
    extractMime = "audio/mp3" := by
  have e : extractStage2Args lyrics =
      extractBaseArgs ++ ["output.mp3"] := by
    simp [extractStage2Args, h]
  refine ⟨?_, ?_, ?_, rfl⟩
  · rw [e]; decide
  · rw [e]; decide
  · rw [extract_allOk_run]; rfl

/-- Closed witness for the amended C3 at the empty lyrics text. -/
theorem c3_no_lyrics_no_metadata_witness :
    jsTrim "" = "" ∧
    ("-metadata" ∉ extractStage2Args "" ∧
      "-disposition:v:1" ∈ extractStage2Args "" ∧
      (handleExtractAudio ⟨allOk, FileData.bin [7]⟩
          { w0 with lyrics := "" }).2.outputUrl =
        some ⟨extractMime, [7]⟩ ∧
      extractMime = "audio/mp3") :=
  ⟨rfl, c3_no_lyrics_no_metadata "" rfl⟩

/-! ## Claim C4 — escape round-trip law -/

/-- C4 counterexample: the escaping is not injective on lyrics texts
containing a quote and a newline — a literal backslash-n in the source
collides with an escaped newline — so no parser can reconstruct every
such text, and the spec's tagging-convention parser indeed fails on
one of the colliding texts. -/
theorem c4_escape_not_invertible :
    ("\"\n\\n" : String) ≠ "\"\\n\n" ∧
    escapeLyrics "\"\n\\n" = escapeLyrics "\"\\n\n" ∧
    ('"' ∈ ("\"\n\\n" : String).data ∧
      '\n' ∈ ("\"\n\\n" : String).data) ∧
    ('"' ∈ ("\"\\n\n" : String).data ∧
      '\n' ∈ ("\"\\n\n" : String).data) ∧
    specUnescape (escapeLyrics "\"\n\\n") ≠ "\"\n\\n" := by
  refine ⟨by decide, by decide, by decide, by decide, by decide⟩

/-- C4 (amended): for every lyrics text containing no literal backslash
character, the escaping is inverted exactly by the tagging-convention
parser — quotes and embedded newlines (the claim's cases) round-trip. -/
theorem c4_escape_roundtrip (s : String) (h : '\\' ∉ s.data) :
    specUnescape (escapeLyrics s) = s := by
  obtain ⟨l⟩ := s
  exact congrArg String.mk (unesc_esc l h)

/-- Closed witness for the amended C4 at a text with a quote and an
embedded newline. -/
theorem c4_escape_roundtrip_witness :
    '\\' ∉ ("\"hi\nworld" : String).data ∧
      specUnescape (escapeLyrics "\"hi\nworld") = "\"hi\nworld" :=
  ⟨by decide, c4_escape_roundtrip "\"hi\nworld" (by decide)⟩

/-! ## Claim C5 — single-flight engine initialization -/

/-- C5 counterexample: two invocations of `loadFFmpeg` trigger two
underlying `ffmpeg.load` acquisitions, not one — the routine consults no
state before loading, so concurrent callers are not deduplicated. -/
theorem c5_two_invocations_two_loads :
    (invokeLoadN 2 initialLoadState).loadsTriggered = 2 ∧
    (invokeLoadN 2 initialLoadState).loadsTriggered ≠ 1 := by
  refine ⟨rfl, by decide⟩

/-- C5 (amended): every invocation of `loadFFmpeg` triggers its own
engine acquisition — `N` invocations trigger exactly `N` loads; the hook
avoids duplicate loads only by invoking the routine once from its mount
effect. -/
theorem c5_n_invocations_n_loads (n : Nat) (st : LoadState) :
    (invokeLoadN n st).loadsTriggered = st.loadsTriggered + n := by
  induction n generalizing st with
  | zero => rfl
  | succ k ih =>
    rw [invokeLoadN, ih]
    simp [loadFFmpegRun]
    omega

/-! ## Claim C7 — ExtractAudio with lyrics -/

/-- C7: with non-blank lyrics, stage 1 takes a single bounded-width
still at timestamp 0, and stage 2 carries the attached-picture
disposition marker, ID3v2.3 tagging, the 192 kbps bitrate, and exactly
two metadata arguments — the bare `LYRICS` tag and the synchronized
`USLT` tag — both holding the escaped lyrics with no raw newline left
(each newline is the literal two-character backslash-n sequence). -/
theorem c7_lyrics_two_stage (lyrics : String) (h : jsTrim lyrics ≠ "") :
    (extractStage2Args lyrics).count "-metadata" = 2 ∧
    (extractStage2Args lyrics)[18]? = some "-metadata" ∧
    (extractStage2Args lyrics)[19]? =
      some ("LYRICS=" ++ escapeLyrics (jsTrim lyrics)) ∧
    (extractStage2Args lyrics)[20]? = some "-metadata" ∧
    (extractStage2Args lyrics)[21]? =
      some ("USLT=" ++ escapeLyrics (jsTrim lyrics)) ∧
    (extractStage2Args lyrics)[14]? = some "-disposition:v:1" ∧
    (extractStage2Args lyrics)[15]? = some "attached_pic" ∧
    (extractStage2Args lyrics)[16]? = some "-id3v2_version" ∧
    (extractStage2Args lyrics)[17]? = some "3" ∧
    (extractStage2Args lyrics)[10]? = some "-ab" ∧
    (extractStage2Args lyrics)[11]? = some "192k" ∧
    extractStage1Args[2]? = some "-ss" ∧
    extractStage1Args[3]? = some "0" ∧
    extractStage1Args[4]? = some "-vframes" ∧
    extractStage1Args[5]? = some "1" ∧
    extractStage1Args[7]? = some "scale=500:-1" ∧
    '\n' ∉ (escapeLyrics (jsTrim lyrics)).data := by
  have e : extractStage2Args lyrics =
      (extractBaseArgs ++ lyricsMetaArgs lyrics) ++ ["output.mp3"] := by
    unfold extractStage2Args
    rw [if_neg h]
  have hL : (("LYRICS=" ++ escapeLyrics (jsTrim lyrics)) ==
      "-metadata") = false := by
    rw [beq_eq_false_iff_ne]
    exact lyrics_tag_ne _
  have hU : (("USLT=" ++ escapeLyrics (jsTrim lyrics)) ==
      "-metadata") = false := by
    rw [beq_eq_false_iff_ne]
    exact uslt_tag_ne _
  have hcount : (extractStage2Args lyrics).count "-metadata" = 2 := by
    rw [e]
    simp [List.count_append, List.count_cons, extractBaseArgs,
      lyricsMetaArgs, hL, hU]
  refine ⟨hcount, ?_, ?_, ?_, ?_, ?_, ?_, ?_, ?_, ?_, ?_, rfl, rfl, rfl,
    rfl, rfl, ?_⟩
  all_goals try rw [e]
  · rfl
  · rfl
  · rfl
  · rfl
  · rfl
  · rfl
  · rfl
  · rfl
  · rfl
  · rfl
  · exact newline_not_mem_escNewlineChars _

/-- Closed witness for C7 at the concrete lyrics of the spec's
scenario B. -/
theorem c7_lyrics_two_stage_witness :
    jsTrim "[00:00.00]hello\n[00:05.00]world" ≠ "" ∧
    ((extractStage2Args "[00:00.00]hello\n[00:05.00]world").count
        "-metadata" = 2 ∧
      (extractStage2Args "[00:00.00]hello\n[00:05.00]world")[18]? =
        some "-metadata" ∧
      (extractStage2Args "[00:00.00]hello\n[00:05.00]world")[19]? =
        some ("LYRICS=" ++
          escapeLyrics (jsTrim "[00:00.00]hello\n[00:05.00]world")) ∧
      (extractStage2Args "[00:00.00]hello\n[00:05.00]world")[20]? =
        some "-metadata" ∧
      (extractStage2Args "[00:00.00]hello\n[00:05.00]world")[21]? =
        some ("USLT=" ++
          escapeLyrics (jsTrim "[00:00.00]hello\n[00:05.00]world")) ∧
      (extractStage2Args "[00:00.00]hello\n[00:05.00]world")[14]? =
        some "-disposition:v:1" ∧
      (extractStage2Args "[00:00.00]hello\n[00:05.00]world")[15]? =
        some "attached_pic" ∧
      (extractStage2Args "[00:00.00]hello\n[00:05.00]world")[16]? =
        some "-id3v2_version" ∧
      (extractStage2Args "[00:00.00]hello\n[00:05.00]world")[17]? =
        some "3" ∧
      (extractStage2Args "[00:00.00]hello\n[00:05.00]world")[10]? =
        some "-ab" ∧
      (extractStage2Args "[00:00.00]hello\n[00:05.00]world")[11]? =
        some "192k" ∧
      extractStage1Args[2]? = some "-ss" ∧
      extractStage1Args[3]? = some "0" ∧
      extractStage1Args[4]? = some "-vframes" ∧
      extractStage1Args[5]? = some "1" ∧
      extractStage1Args[7]? = some "scale=500:-1" ∧
      '\n' ∉
        (escapeLyrics
          (jsTrim "[00:00.00]hello\n[00:05.00]world")).data) :=
  ⟨by decide, c7_lyrics_two_stage "[00:00.00]hello\n[00:05.00]world"
    (by decide)⟩

/-! ## Claim C8 — ConvertToPreview default arguments -/

/-- C8: the GIF command specifies a 5-second window starting at time
zero, frame rate 10, width 320 with proportional height, and the
animated-image container `output.gif`; the materialized result carries
MIME type `image/gif`. -/
theorem c8_gif_default_args :
    gifArgs[2]? = some "-t" ∧ gifArgs[3]? = some "5.0" ∧
    gifArgs[4]? = some "-ss" ∧ gifArgs[5]? = some "0.0" ∧
    gifArgs[6]? = some "-vf" ∧
    gifArgs[7]? = some "fps=10,scale=320:-1" ∧
    gifArgs.getLastD "" = "output.gif" ∧
    gifMime = "image/gif" ∧
    (handleConvertToGif ⟨allOk, FileData.bin [1, 2, 3]⟩ w0).2.outputUrl =
      some ⟨gifMime, [1, 2, 3]⟩ := by
  refine ⟨rfl, rfl, rfl, rfl, rfl, rfl, rfl, rfl, ?_⟩
  have hrun := gif_allOk_run (FileData.bin [1, 2, 3]) defaultLyrics
  show (handleConvertToGif ⟨allOk, FileData.bin [1, 2, 3]⟩
    { w0 with lyrics := defaultLyrics }).2.outputUrl = _
  rw [hrun]
  rfl

/-! ## Claim C9 — output normalization at the materializer boundary -/

/-- C9: the raw engine output is normalized to one canonical byte
sequence before being wrapped — a string is UTF-8 encoded, a byte array
is copied unchanged — and both pipelines wrap exactly the normalized
bytes of whatever the engine returned into the resource handle. -/
theorem c9_normalized_output (s : String) (b : List Nat) (d : FileData)
    (lyr : String) :
    normalizeOutput (FileData.str s) = utf8Bytes s ∧
    normalizeOutput (FileData.bin b) = b ∧
    (handleExtractAudio ⟨allOk, d⟩
        { w0 with lyrics := lyr }).2.outputUrl =
      some ⟨extractMime, normalizeOutput d⟩ ∧
    (handleConvertToGif ⟨allOk, d⟩
        { w0 with lyrics := lyr }).2.outputUrl =
      some ⟨gifMime, normalizeOutput d⟩ := by
  refine ⟨rfl, by simp [normalizeOutput], ?_, ?_⟩
  · rw [extract_allOk_run]
  · rw [gif_allOk_run]

/-! ## Claim C10 — guard path with no file or loading engine -/

/-- C10: when no source file is selected or the engine is still loading,
either handler only sets the status message and returns: no engine call
is issued, nothing is staged, and the previously materialized output and
every other piece of state are left unchanged. -/
theorem c10_guard_blocks (sc : Scenario) (w : World)
    (h : w.videoFile = none ∨ w.ffmpegLoading = true) :
    (handleExtractAudio sc w).1 = Except.ok () ∧
    (handleExtractAudio sc w).2 =
      { w with message := "请先选择文件并加载 FFmpeg" } ∧
    (handleConvertToGif sc w).1 = Except.ok () ∧
    (handleConvertToGif sc w).2 =
      { w with message := "请先选择文件并加载 FFmpeg" } := by
  have hg : (w.videoFile.isNone || w.ffmpegLoading) = true := by
    rcases h with h | h
    · simp [h]
    · simp [h]
  refine ⟨?_, ?_, ?_, ?_⟩ <;>
    simp [handleExtractAudio, handleConvertToGif, hg]

/-- Closed witness for C10 at a state with no selected file. -/
theorem c10_guard_blocks_witness :
    (({ w0 with videoFile := none } : World).videoFile = none ∨
      ({ w0 with videoFile := none } : World).ffmpegLoading = true) ∧
    ((handleExtractAudio ⟨allOk, FileData.bin []⟩
        { w0 with videoFile := none }).1 = Except.ok () ∧
      (handleExtractAudio ⟨allOk, FileData.bin []⟩
          { w0 with videoFile := none }).2 =
        { { w0 with videoFile := none } with
            message := "请先选择文件并加载 FFmpeg" } ∧
      (handleConvertToGif ⟨allOk, FileData.bin []⟩
          { w0 with videoFile := none }).1 = Except.ok () ∧
      (handleConvertToGif ⟨allOk, FileData.bin []⟩
          { w0 with videoFile := none }).2 =
        { { w0 with videoFile := none } with
            message := "请先选择文件并加载 FFmpeg" }) :=
  ⟨Or.inl rfl,
    c10_guard_blocks ⟨allOk, FileData.bin []⟩
      { w0 with videoFile := none } (Or.inl rfl)⟩

end MusicEmbed
